import Mathlib

/-!
Verification development for the VoiceAgentTool repository.

The repository splits into (a) a frontend / SQL plumbing layer, present in
the sources, and (b) the live dialogue session engine (Session Store,
Protocol Handler, Dialogue Policy Engine, Quality Monitor, Extraction
Bridge) described by the specification; the engine's backend sources
(`backend/app/services/llm/context.py`, `realtime.py`,
`backend/app/api/websocket.py`) are referenced by the repository's
documentation but are not present, so the engine is modelled from the
specification's words and verified against that model.

Part 1 embeds the frontend type layer and the SQL statistics function.
Part 2 models the extracted-field map with its terminal-field merge rules.
Part 3 models the Session Store.
Part 4 models the Protocol Handler's opening reply.
Part 5 models the Dialogue Policy Engine and Quality Monitor.
-/

/-- Substring containment: `needle` occurs contiguously inside `hay`.
Mirrors the SQL pattern match `x LIKE '%needle%'` and the engine's
"keyword present anywhere in an utterance" check. -/
def containsSubstr (needle hay : String) : Bool :=
  decide (needle.data <:+: hay.data)

/-! ## Part 1: frontend types and SQL statistics (from source) -/

/-- The nine values of the frontend `CallStatus` const object, in
declaration order, from `src/frontend/src/types/index.ts` lines 4-17:
INITIATED, RINGING, IN_PROGRESS, COMPLETED, FAILED, NO_ANSWER, BUSY,
CANCELLED, CALL_ENDED. -/
def CallStatusValues : List String :=
  ["initiated", "ringing", "in_progress", "completed", "failed",
   "no_answer", "busy", "cancelled", "call_ended"]

/-- The status values admitted by the `calls` table CHECK constraint,
from `src/unnamed/part_010` (`CREATE TABLE calls ... CHECK (status IN
('initiated', 'in_progress', 'completed', 'failed', 'escalated'))`). -/
def callsTableStatusAllowed : List String :=
  ["initiated", "in_progress", "completed", "failed", "escalated"]

/-- One row of the `calls` table, restricted to the columns read by
`get_today_stats` (`src/unnamed/part_010`): `status`, nullable
`call_outcome`, `created_at` (modelled as a Unix timestamp in seconds)
and nullable `call_duration_seconds`. -/
structure CallRow where
  status : String
  call_outcome : Option String
  created_at : Nat
  call_duration_seconds : Option Int
deriving DecidableEq

/-- `DATE(created_at)`: truncate a timestamp (seconds) to its day. -/
def dateOf (ts : Nat) : Nat := ts / 86400

/-- The record returned by the SQL function `get_today_stats`
(`src/unnamed/part_011`). -/
structure TodayStats where
  total_calls : Nat
  successful_calls : Nat
  emergency_calls : Nat
  in_progress_calls : Nat
  avg_duration_minutes : Option ℚ
deriving DecidableEq

/-- SQL `CASE WHEN call_outcome LIKE '%Emergency%' THEN 1 END` as a
predicate: a NULL `call_outcome` yields NULL, which `COUNT` skips. -/
def outcomeLikeEmergency : Option String → Bool
  | none => false
  | some s => containsSubstr "Emergency" s

/-- Round a rational to two decimal places, as `ROUND(x, 2)`. -/
def roundTo2 (q : ℚ) : ℚ := (round (q * 100) : ℤ) / 100

/-- The SQL function `get_today_stats` from `src/unnamed/part_011`:
over the rows whose `DATE(created_at)` equals the current date it counts
all rows, the rows with `status = 'completed'`, the rows whose
`call_outcome LIKE '%Emergency%'`, and the rows with
`status = 'in_progress'`, and averages `call_duration_seconds / 60.0`
rounded to two decimals (NULL over no rows, as SQL `AVG`). -/
def get_today_stats (rows : List CallRow) (today : Nat) : TodayStats :=
  let todays := rows.filter (fun r => dateOf r.created_at = today)
  let durs := todays.filterMap (fun r => r.call_duration_seconds)
  { total_calls := todays.length
    successful_calls := (todays.filter (fun r => r.status = "completed")).length
    emergency_calls := (todays.filter (fun r => outcomeLikeEmergency r.call_outcome)).length
    in_progress_calls := (todays.filter (fun r => r.status = "in_progress")).length
    avg_duration_minutes :=
      if durs.length = 0 then none
      else some (roundTo2 (((durs.sum : ℚ) / durs.length) / 60)) }

/-! ## Part 2: the extracted-field map (modelled from the spec) -/

/-- A field name in the `extracted` map. -/
abbrev FieldName := String

/-- Modelled from the spec: the Session's `extracted` accumulating mapping
of field name to value (the engine sources `backend/app/services/llm/
context.py` / `realtime.py` are not in the sources). Spec, section 3:
"accumulating mapping of field name → value, built incrementally; later
writes may overwrite earlier ones for the same field (last-write-wins)
except fields marked terminal (e.g., an outcome classification), which
lock once set". -/
def Extracted := FieldName → Option String

/-- Modelled from the spec: one incremental write into `extracted` under
the last-write-wins-except-terminal rule: a terminal field that is
already set is left unchanged, any other write lands. `term` marks the
terminal fields. -/
def writeField (term : FieldName → Bool) (e : Extracted)
    (f : FieldName) (v : String) : Extracted :=
  if term f ∧ (e f).isSome then e
  else fun g => if g = f then some v else e g

/-- Modelled from the spec: merging a freshly extracted field map `x`
into the current `extracted` map `e` under last-write-wins-except-
terminal rules (spec section 4.5): each field present in `x` overwrites,
except a terminal field already set in `e`, which keeps its old value;
fields absent from `x` are untouched. -/
def mergeExtracted (term : FieldName → Bool) (e x : Extracted) : Extracted :=
  fun g =>
    match x g with
    | some v => if term g ∧ (e g).isSome then e g else some v
    | none => e g

/-- Modelled from the spec: the Extraction Bridge (spec section 4.5),
invoked at call finalization with the full turn log and the current
`extracted` map. The external structured-extraction collaborator is the
function argument `extractor` (a deterministic oracle, per spec section
6: `extract(turnLog, scenario) -> fieldMap`); its result is merged into
`extracted` under last-write-wins-except-terminal rules. `Turn` data is
abstracted by the type parameter. -/
def extractionBridge {TurnT ScenarioT : Type}
    (term : FieldName → Bool)
    (extractor : List TurnT → ScenarioT → Extracted)
    (turnLog : List TurnT) (scenario : ScenarioT) (e : Extracted) : Extracted :=
  mergeExtracted term e (extractor turnLog scenario)

/-- Modelled from the spec: the writes a session can perform on its
`extracted` map over its lifetime: incremental per-turn field writes and
merges of externally extracted field maps (the finalization merge is a
`mergeOp` with the extractor's output). -/
inductive ExtractOp where
  | writeOp (f : FieldName) (v : String)
  | mergeOp (x : Extracted)

/-- Apply one extraction operation to the `extracted` map. -/
def applyExtractOp (term : FieldName → Bool) (e : Extracted) :
    ExtractOp → Extracted
  | .writeOp f v => writeField term e f v
  | .mergeOp x => mergeExtracted term e x

/-- Apply a sequence of extraction operations in order. -/
def applyExtractOps (term : FieldName → Bool) (ops : List ExtractOp)
    (e : Extracted) : Extracted :=
  ops.foldl (applyExtractOp term) e

/-- Concrete terminal-field marker: only `call_outcome` is terminal. -/
def termW : FieldName → Bool := fun g => decide (g = "call_outcome")

/-- Concrete `extracted` map with the terminal outcome already set. -/
def extractedW : Extracted :=
  fun g => if g = "call_outcome" then some "Emergency" else none

/-- Concrete later writes: an attempted overwrite of the terminal field
and a merge that tries to set every field. -/
def opsW : List ExtractOp :=
  [ExtractOp.writeOp "call_outcome" "Driving",
   ExtractOp.mergeOp (fun _ => some "In-Transit Update")]

/-- Concrete extraction collaborator that also tries to set every field. -/
def extractorW : List String → Unit → Extracted :=
  fun _ _ => fun _ => some "Arrival Confirmation"
/-! ## Part 5: Dialogue Policy Engine and Quality Monitor (modelled from
the spec; the engine sources `backend/app/services/llm/context.py`,
`realtime.py` and `backend/app/api/websocket.py` are not in the
sources). -/

/-- Modelled from the spec: the `scenario` enum of the Session data model
(spec section 3). -/
inductive Scenario where
  | CheckIn
  | Emergency
  | Delivery
  | Custom
deriving DecidableEq

/-- Modelled from the spec: the strict ordered emergency sub-state
sequence of spec section 4.3. -/
inductive EmergencyStage where
  | SafetyCheck
  | InjuryCheck
  | LocationCheck
  | LoadCheck
  | Escalating
deriving DecidableEq

/-- Modelled from the spec: the Session `status` field (spec section 3):
`{Active, Escalated, Completed, Abandoned}`. -/
inductive SessionStatus where
  | Active
  | Escalated
  | Completed
  | Abandoned
deriving DecidableEq

/-- Modelled from the spec: the speaker of a turn (spec section 3). -/
inductive Speaker where
  | agent
  | counterparty
deriving DecidableEq

/-- Modelled from the spec: one turn of the Session turn log:
(speaker, text, confidence, timestampOffset). Confidence is modelled as
a natural number on a 0-100 scale. -/
structure DialogTurn where
  speaker : Speaker
  text : String
  confidence : Nat
  timestampOffset : Nat
deriving DecidableEq

/-- Modelled from the spec: the driver-status classification of the first
substantive CheckIn turn (spec section 4.3): Driving, Arrived, Delayed,
Unloading. -/
inductive DriverStatus where
  | Driving
  | Arrived
  | Delayed
  | Unloading
deriving DecidableEq

/-- The display name of a driver status, written into `extracted`. -/
def driverStatusName : DriverStatus → String
  | .Driving => "Driving"
  | .Arrived => "Arrived"
  | .Delayed => "Delayed"
  | .Unloading => "Unloading"

/-- Modelled from the spec: the required-field checklist per driver
status (spec section 4.3 gives Driving: location, ETA, delay reason, and
Arrived: unloading status, proof-of-delivery acknowledgment; Delayed and
Unloading mirror the nearest listed status). -/
def checklistFor : DriverStatus → List String
  | .Driving => ["current_location", "eta", "delay_reason"]
  | .Arrived => ["unloading_status", "pod_acknowledged"]
  | .Delayed => ["current_location", "eta", "delay_reason"]
  | .Unloading => ["unloading_status", "pod_acknowledged"]

/-- Modelled from the spec: the static dispatch context supplied at call
start (spec section 3: driver name, load/reference number). -/
structure Subject where
  driverName : String
  loadNumber : String
deriving DecidableEq

/-- Modelled from the spec: the configuration and external collaborators
of the Dialogue Policy Engine (spec sections 4.3 and 6): the configured
emergency trigger phrases, the terseness and confidence thresholds, and
deterministic oracles for the external collaborators — status
classification, topic-continuity field hint, route/location lookup
(`none` disables the location-conflict check), the utterance generator
(`none` models failure/timeout, handled by canned fallback) and the
structured extractor used at finalization. -/
structure EngineConfig where
  emergencyTriggers : List String
  terseThreshold : Nat
  confidenceThreshold : Nat
  classify : String → Option DriverStatus
  impliedField : String → Option String
  routeConflict : Option (String → Bool)
  generate : Scenario → List DialogTurn → Subject → Option String
  extractor : List DialogTurn → Scenario → Extracted

/-- Modelled from the spec: the per-call Session of the data model (spec
section 3) together with the Policy Engine bookkeeping of spec section
4.3: emergency sub-state with its single re-ask marker, driver status
with its remaining checklist and the field asked last turn, the two
Quality Monitor streaks, and the location-discrepancy flag. -/
structure EngineSession where
  callId : String
  scenario : Scenario
  subject : Subject
  stage : EmergencyStage
  stageReasked : Bool
  driverStatus : Option DriverStatus
  checklist : List String
  askedField : Option String
  terseStreak : Nat
  clarificationStreak : Nat
  status : SessionStatus
  turns : List DialogTurn
  extracted : Extracted
  locationDiscrepancy : Bool

/-- Modelled from the spec: the Policy Engine decision serialized back
onto the wire (spec section 4.2): utterance text, the `endCall` flag, an
optional recorded outcome classification and the transfer/escalation
marker. -/
structure Decision where
  utterance : String
  endCall : Bool
  outcome : Option String
  escalate : Bool
deriving DecidableEq

/-- Count the maximal runs of non-space characters; the flag records
whether the scan is inside a word. -/
def wordCountAux : Bool → List Char → Nat
  | _, [] => 0
  | inWord, c :: cs =>
    if c = ' ' then wordCountAux false cs
    else if inWord then wordCountAux true cs
    else 1 + wordCountAux true cs

/-- Word count of an utterance: maximal non-empty space-separated
words. -/
def wordCount (s : String) : Nat := wordCountAux false s.data

/-- Modelled from the spec: the fixed question asked by each emergency
sub-state (spec section 4.3: "each state asks one fixed question");
`Escalating` carries the escalation statement. -/
def stageQuestion : EmergencyStage → String
  | .SafetyCheck => "Are you safe right now?"
  | .InjuryCheck => "Is anyone injured?"
  | .LocationCheck => "Where exactly are you right now?"
  | .LoadCheck => "Is the load secure?"
  | .Escalating => "Stay where you are. I am connecting you to a human dispatcher now."

/-- The successor in the strict emergency sequence SafetyCheck →
InjuryCheck → LocationCheck → LoadCheck → Escalating. -/
def nextStage : EmergencyStage → EmergencyStage
  | .SafetyCheck => .InjuryCheck
  | .InjuryCheck => .LocationCheck
  | .LocationCheck => .LoadCheck
  | .LoadCheck => .Escalating
  | .Escalating => .Escalating

/-- The `extracted` field that records the answer of each emergency
sub-state. -/
def stageFieldName : EmergencyStage → String
  | .SafetyCheck => "safety_status"
  | .InjuryCheck => "injury_status"
  | .LocationCheck => "emergency_location"
  | .LoadCheck => "load_secure"
  | .Escalating => "escalation_status"

/-- Modelled from the spec: the terminal-field marker of the `extracted`
map — the outcome classification locks once set (spec section 3). -/
def terminalField : FieldName → Bool := fun g => decide (g = "call_outcome")

/-- Canned probing prompt of the UncooperativeDriver override at terse
streak 3. -/
def probingPrompt : String :=
  "I need a bit more detail so dispatch can plan. Can you walk me through it?"

/-- Canned graceful termination of the UncooperativeDriver override at
terse streak 5. -/
def unresponsiveClosing : String :=
  "I understand. I will check back with you later. Thank you, goodbye."

/-- Canned repeat-request of the NoisyEnvironment override. -/
def repeatRequest : String :=
  "Sorry, the line is breaking up on my end. Could you repeat that?"

/-- Canned escalation-to-human utterance of the NoisyEnvironment override
at clarification streak 3. -/
def noisyEscalation : String :=
  "I am having trouble hearing you clearly, so a human dispatcher will call you right back."

/-- Canned non-confrontational confirmation question of the
LocationConflict override. -/
def locationConfirmQuestion : String :=
  "Thanks. Just so I note it right, that location is on your planned route, correct?"

/-- Canned clarifying question asked when the first counterparty turn is
unclassifiable. -/
def clarifyStatusQuestion : String :=
  "Got it. Can you tell me whether you are currently driving, arrived, delayed, or unloading?"

/-- Canned closing utterance when the checklist completes. -/
def closingUtterance : String :=
  "Thanks, that is everything I needed. Drive safe, goodbye."

/-- Modelled from the spec: the fixed, scenario-appropriate canned
utterance used when the external generation call fails or times out
(spec section 4.3: never silence). -/
def cannedFallback : Scenario → String
  | .Emergency => "Please stay on the line. Help is being arranged for you."
  | _ => "Sorry, bear with me a moment. Can you tell me your current status on the load?"

/-- Modelled from the spec: the emergency trigger check — any configured
trigger phrase present anywhere in the utterance (no negation handling,
per the spec's design note preserving the literal behavior). -/
def emergencyTriggered (cfg : EngineConfig) (text : String) : Bool :=
  cfg.emergencyTriggers.any (fun p => containsSubstr p text)

/-- Append metadata to an inbound counterparty utterance. -/
def mkCounterpartyTurn (s : EngineSession) (text : String) (conf : Nat) :
    DialogTurn :=
  { speaker := .counterparty
    text := text
    confidence := conf
    timestampOffset := s.turns.length }

/-- Modelled from the spec: the decision components shared by the
non-terminating overrides. -/
def plainDecision (u : String) : Decision :=
  { utterance := u, endCall := false, outcome := none, escalate := false }

/-- Modelled from the spec: the Emergency sub-state flow (spec section
4.3): the current stage's answer is recorded and the machine advances;
an empty answer is re-asked once, then the machine advances anyway;
reaching Escalating emits the escalation statement with `endCall=true`
and `status=Escalated`. -/
def emergencyFlow (s1 : EngineSession) (text : String) :
    EngineSession × Decision :=
  if text ≠ "" ∨ s1.stageReasked then
    let recorded := { s1 with
      extracted := writeField terminalField s1.extracted (stageFieldName s1.stage) text }
    let ns := nextStage s1.stage
    if ns = .Escalating then
      ({ recorded with
          stage := ns
          stageReasked := false
          status := .Escalated
          extracted := writeField terminalField recorded.extracted
            "call_outcome" "Emergency Escalation" },
       { utterance := stageQuestion .Escalating
         endCall := true
         outcome := some "Emergency Escalation"
         escalate := true })
    else
      ({ recorded with stage := ns, stageReasked := false },
       plainDecision (stageQuestion ns))
  else
    ({ s1 with stageReasked := true }, plainDecision (stageQuestion s1.stage))

/-- Modelled from the spec: choose and ask the next unanswered checklist
field (spec section 4.3): exactly one question per turn, preferring the
field implied by the counterparty's utterance (topic continuity) before
checklist order; when the checklist is exhausted, transition to
Completed with `endCall=true` and a closing utterance; if the external
generation call fails, emit the canned fallback and do not advance the
checklist state, so the same field is re-asked next turn. -/
def askNextField (cfg : EngineConfig) (s2 : EngineSession) (text : String) :
    EngineSession × Decision :=
  if s2.checklist.isEmpty then
    ({ s2 with
        status := .Completed
        extracted := writeField terminalField s2.extracted
          "call_outcome" "In-Transit Update" },
     { utterance := closingUtterance
       endCall := true
       outcome := some "In-Transit Update"
       escalate := false })
  else
    let f :=
      match cfg.impliedField text with
      | some g => if g ∈ s2.checklist then g else s2.checklist.headD ""
      | none => s2.checklist.headD ""
    match cfg.generate s2.scenario s2.turns s2.subject with
    | some u => ({ s2 with askedField := some f }, plainDecision u)
    | none => (s2, plainDecision (cannedFallback s2.scenario))

/-- Modelled from the spec: the CheckIn flow (spec section 4.3):
CheckIn.Open classifies the first substantive turn (asking a clarifying
question if unclassifiable) and installs the per-status checklist;
CheckIn.Gathering records the answer to the field asked last turn and
asks the next unanswered field. -/
def checkInFlow (cfg : EngineConfig) (s1 : EngineSession) (text : String) :
    EngineSession × Decision :=
  match s1.driverStatus with
  | none =>
    match cfg.classify text with
    | some st =>
      askNextField cfg
        { s1 with
            driverStatus := some st
            checklist := checklistFor st
            extracted := writeField terminalField s1.extracted
              "driver_status" (driverStatusName st) }
        text
    | none => (s1, plainDecision clarifyStatusQuestion)
  | some _ =>
    match s1.askedField with
    | some f =>
      askNextField cfg
        { s1 with
            checklist := s1.checklist.erase f
            askedField := none
            extracted := writeField terminalField s1.extracted f text }
        text
    | none => askNextField cfg s1 text

/-- Modelled from the spec: the generic flow of the Delivery and Custom
scenarios, for which the spec prescribes only externally generated
utterances with canned fallback. -/
def genericFlow (cfg : EngineConfig) (s1 : EngineSession) :
    EngineSession × Decision :=
  match cfg.generate s1.scenario s1.turns s1.subject with
  | some u => (s1, plainDecision u)
  | none => (s1, plainDecision (cannedFallback s1.scenario))

/-- Modelled from the spec: the scenario dispatch below the cross-cutting
overrides, including the LocationConflict override (CheckIn only, spec
section 4.3): when the route lookup is present and reports a conflict,
the next utterance is a non-confrontational confirmation question and
`locationDiscrepancy=true` is recorded; the point is never re-argued. -/
def normalFlow (cfg : EngineConfig) (s1 : EngineSession) (text : String) :
    EngineSession × Decision :=
  match s1.scenario with
  | .Emergency => emergencyFlow s1 text
  | .CheckIn =>
    match cfg.routeConflict with
    | some conflicts =>
      if conflicts text ∧ ¬ s1.locationDiscrepancy then
        ({ s1 with locationDiscrepancy := true },
         plainDecision locationConfirmQuestion)
      else checkInFlow cfg s1 text
    | none => checkInFlow cfg s1 text
  | _ => genericFlow cfg s1

/-- Modelled from the spec: one Dialogue Policy Engine decision cycle on
an inbound counterparty turn (spec sections 4.3 and 4.4). The Quality
Monitor updates both streaks (a qualifying turn resets its streak to
zero); then, in the spec's precedence order: the Emergency trigger
(checked before any other branching, in every scenario except
already-Emergency) flips the scenario, discards the checklist and asks
the safety-check question; then the NoisyEnvironment override (repeat
request, escalation with `endCall=true` at clarification streak 3); then
the UncooperativeDriver override (probing prompt at terse streak 3,
graceful termination with outcome "Unresponsive" at terse streak 5);
then the LocationConflict override and the normal per-scenario flow. -/
def processTurn (cfg : EngineConfig) (s : EngineSession)
    (text : String) (conf : Nat) : EngineSession × Decision :=
  let isTerse := wordCount text < cfg.terseThreshold
  let isLowConf := conf < cfg.confidenceThreshold
  let terse1 := if isTerse then s.terseStreak + 1 else 0
  let clar1 := if isLowConf then s.clarificationStreak + 1 else 0
  let s1 := { s with
    turns := s.turns ++ [mkCounterpartyTurn s text conf]
    terseStreak := terse1
    clarificationStreak := clar1 }
  if s.scenario ≠ Scenario.Emergency ∧ emergencyTriggered cfg text then
    ({ s1 with
        scenario := .Emergency
        stage := .SafetyCheck
        stageReasked := false
        checklist := []
        askedField := none
        driverStatus := none },
     plainDecision (stageQuestion .SafetyCheck))
  else if isLowConf then
    if 3 ≤ clar1 then
      ({ s1 with status := .Escalated },
       { utterance := noisyEscalation
         endCall := true
         outcome := some "Escalated"
         escalate := true })
    else (s1, plainDecision repeatRequest)
  else if 5 ≤ terse1 then
    ({ s1 with
        status := .Completed
        extracted := writeField terminalField s1.extracted
          "call_outcome" "Unresponsive" },
     { utterance := unresponsiveClosing
       endCall := true
       outcome := some "Unresponsive"
       escalate := false })
  else if terse1 = 3 then (s1, plainDecision probingPrompt)
  else normalFlow cfg s1 text

/-- Modelled from the spec: the per-connection events a live session
processes after creation (spec sections 4.2, 5 and 7): an inbound
counterparty turn, a reminder on elapsed silence, a connection-level
transport failure (ends the session as Abandoned) and the end-of-call
finalization. -/
inductive CallEvent where
  | turn (text : String) (confidence : Nat)
  | reminder
  | transportFailure
  | callEnded

/-- Modelled from the spec: one session lifecycle step. Completed and
Abandoned are terminal: no event changes a session in a terminal status
and no reply is produced. A turn runs the Policy Engine; a reminder runs
a decision cycle without a new counterparty turn; a transport failure
ends the session as Abandoned; call end runs the Extraction Bridge and
ends the session (an Escalated session stays Escalated in its persisted
record, otherwise Completed). -/
def stepEvent (cfg : EngineConfig) (s : EngineSession) :
    CallEvent → EngineSession × Option Decision
  | e =>
    if s.status = .Completed ∨ s.status = .Abandoned then (s, none)
    else
      match e with
      | .turn text conf =>
        let r := processTurn cfg s text conf
        (r.1, some r.2)
      | .reminder =>
        match cfg.generate s.scenario s.turns s.subject with
        | some u => (s, some (plainDecision u))
        | none => (s, some (plainDecision (cannedFallback s.scenario)))
      | .transportFailure => ({ s with status := .Abandoned }, none)
      | .callEnded =>
        ({ s with
            status := if s.status = .Escalated then .Escalated else .Completed
            extracted := extractionBridge terminalField cfg.extractor
              s.turns s.scenario s.extracted }, none)

/-- Run a sequence of events through the session lifecycle. -/
def runEvents (cfg : EngineConfig) (s : EngineSession)
    (evs : List CallEvent) : EngineSession :=
  evs.foldl (fun st e => (stepEvent cfg st e).1) s

/-! ## Part 3: Session Store (modelled from the spec) -/

/-- Modelled from the spec: the Session Store error taxonomy for caller
errors (spec sections 4.1 and 7): `DuplicateSession` and
`SessionNotFound`, surfaced and never silently ignored. -/
inductive StoreError where
  | DuplicateSession
  | SessionNotFound
deriving DecidableEq

/-- Modelled from the spec: the initial configuration handed to
`create` — the scenario from the agent configuration and the static
dispatch subject (spec section 3). -/
structure InitConfig where
  scenario : Scenario
  subject : Subject

/-- Modelled from the spec: the fresh Session created on the first
protocol event for a `callId` (spec section 3): scenario from the
configuration, empty turn log, empty `extracted` map, zero streaks,
status Active. -/
def initSession (callId : String) (c : InitConfig) : EngineSession :=
  { callId := callId
    scenario := c.scenario
    subject := c.subject
    stage := .SafetyCheck
    stageReasked := false
    driverStatus := none
    checklist := []
    askedField := none
    terseStreak := 0
    clarificationStreak := 0
    status := .Active
    turns := []
    extracted := fun _ => none
    locationDiscrepancy := false }

/-- Modelled from the spec: the Session Store index, an association of
live `callId`s to Sessions (spec section 4.1; the concurrency of the
index is out of the shallow embedding, its sequential contract is
modelled). -/
abbrev SessionStore := List (String × EngineSession)

/-- Look up the live session of a `callId`. -/
def SessionStore.find (st : SessionStore) (cid : String) :
    Option EngineSession :=
  List.lookup cid st

/-- Modelled from the spec: `create(callId, initConfig) -> Session`;
fails with `DuplicateSession` if called for a live `callId` (spec
section 4.1), leaving the store unchanged. -/
def SessionStore.create (st : SessionStore) (cid : String) (c : InitConfig) :
    Except StoreError (SessionStore × EngineSession) :=
  match SessionStore.find st cid with
  | some _ => .error .DuplicateSession
  | none =>
    let s := initSession cid c
    .ok ((cid, s) :: st, s)

/-- Modelled from the spec: `get(callId) -> Session | NotFound` (spec
section 4.1). -/
def SessionStore.get (st : SessionStore) (cid : String) :
    Except StoreError EngineSession :=
  match SessionStore.find st cid with
  | some s => .ok s
  | none => .error .SessionNotFound

/-- Modelled from the spec: `remove(callId)`, failing with
`SessionNotFound` on an absent id (spec section 4.1). -/
def SessionStore.remove (st : SessionStore) (cid : String) :
    Except StoreError SessionStore :=
  match SessionStore.find st cid with
  | some _ => .ok (st.filter (fun p => p.1 ≠ cid))
  | none => .error .SessionNotFound

/-! ## Part 4: Protocol Handler opening reply (modelled from the spec) -/

/-- Modelled from the spec: the proactive opening utterance sent on
`CallDetails` (spec sections 4.2 and 6: the agent must speak first; its
text is built from the dispatch subject). -/
def openingUtterance (subject : Subject) : String :=
  "Hi " ++ subject.driverName ++ ", this is dispatch calling about load " ++
    subject.loadNumber ++ ". Can you give me an update on your status?"

/-- Modelled from the spec: the Protocol Handler's treatment of the
`CallDetails` message received at connection start (spec section 4.2,
`backend/app/api/websocket.py` is not in the sources): it creates the
Session and immediately replies with the opening utterance. -/
def handleCallDetails (st : SessionStore) (cid : String) (c : InitConfig) :
    Except StoreError (SessionStore × String) :=
  match SessionStore.create st cid c with
  | .ok (st2, s) => .ok (st2, openingUtterance s.subject)
  | .error e => .error e

/-! ## Concrete instances used by the witnesses -/

/-- Concrete classifier oracle for witnesses. -/
def classifyW : String → Option DriverStatus := fun t =>
  if containsSubstr "driving" t then some .Driving
  else if containsSubstr "arrived" t then some .Arrived
  else none

/-- Concrete engine configuration for witnesses: trigger phrases,
terseness threshold 4 words, confidence threshold 60. -/
def cfgW : EngineConfig :=
  { emergencyTriggers := ["blowout", "accident", "emergency"]
    terseThreshold := 4
    confidenceThreshold := 60
    classify := classifyW
    impliedField := fun _ => none
    routeConflict := none
    generate := fun _ _ _ => some "Thanks. What is your current location?"
    extractor := fun _ _ => fun _ => none }

/-- Concrete initial configuration for witnesses. -/
def initConfigW : InitConfig :=
  { scenario := .CheckIn
    subject := { driverName := "Mike", loadNumber := "7891-B" } }

/-- Concrete freshly created CheckIn session for witnesses. -/
def sessionW : EngineSession := initSession "call-1" initConfigW

/-- Concrete session four terse turns into a call, for the terse-streak
witnesses. -/
def terseSessionW : EngineSession := { sessionW with terseStreak := 4 }

/-- Concrete session already in the Emergency scenario. -/
def emergencySessionW : EngineSession :=
  { sessionW with scenario := .Emergency, stage := .InjuryCheck }

/-- Concrete session in a terminal status. -/
def completedSessionW : EngineSession :=
  { sessionW with status := .Completed }

/-- Concrete session in the Escalated status. -/
def escalatedSessionW : EngineSession :=
  { sessionW with status := .Escalated }

/-- Concrete store holding the witness session. -/
def storeW : SessionStore := [("call-1", sessionW)]

/-! ## Theorems -/

/-- Claim C9: the frontend CallStatus enumeration admits exactly the nine
string values `initiated`, `ringing`, `in_progress`, `completed`,
`failed`, `no_answer`, `busy`, `cancelled`, `call_ended`; in particular
`escalated`, which the `calls` table CHECK constraint permits as a
persisted status, is not a member of CallStatus. -/
theorem C9_call_status_enumeration :
    CallStatusValues =
      ["initiated", "ringing", "in_progress", "completed", "failed",
       "no_answer", "busy", "cancelled", "call_ended"] ∧
    CallStatusValues.length = 9 ∧
    "escalated" ∉ CallStatusValues ∧
    "escalated" ∈ callsTableStatusAllowed := by
  refine ⟨rfl, rfl, ?_, ?_⟩ <;> decide

/-- Claim C10: `get_today_stats` returns `emergency_calls` equal to the
number of rows whose `created_at` date is the current date and whose
`call_outcome` contains the substring `Emergency`, independent of those
rows' `status` values (rewriting every row's status with an arbitrary
function leaves the count unchanged). -/
theorem C10_today_stats_emergency_calls (rows : List CallRow) (today : Nat) :
    (get_today_stats rows today).emergency_calls =
      (rows.filter (fun r =>
        dateOf r.created_at = today ∧ outcomeLikeEmergency r.call_outcome)).length ∧
    ∀ f : CallRow → String,
      (get_today_stats
          (rows.map (fun r => { r with status := f r })) today).emergency_calls =
        (get_today_stats rows today).emergency_calls := by
  constructor
  · simp only [get_today_stats, List.filter_filter]
    congr 1
    apply List.filter_congr
    intro r _
    simp [Bool.and_comm, decide_eq_true_eq]
  · intro f
    simp only [get_today_stats, List.filter_filter]
    induction rows with
    | nil => rfl
    | cons r rs ih =>
      simp only [List.map_cons, List.filter_cons]
      by_cases hd : dateOf r.created_at = today <;>
        by_cases ho : outcomeLikeEmergency r.call_outcome = true <;>
          simp [hd, ho, ih]

/-- A single write never changes a terminal field that is already set. -/
theorem writeField_preserves_terminal (term : FieldName → Bool)
    (e : Extracted) (f g : FieldName) (v w : String)
    (hterm : term f = true) (hset : e f = some v) :
    writeField term e g w f = some v := by
  unfold writeField
  by_cases hc : term g ∧ (e g).isSome
  · simp [hc, hset]
  · simp only [hc, if_false]
    by_cases hfg : f = g
    · subst hfg
      exact absurd ⟨hterm, by simp [hset]⟩ hc
    · simp [hfg, hset]

/-- A merge never changes a terminal field that is already set. -/
theorem mergeExtracted_preserves_terminal (term : FieldName → Bool)
    (e x : Extracted) (f : FieldName) (v : String)
    (hterm : term f = true) (hset : e f = some v) :
    mergeExtracted term e x f = some v := by
  unfold mergeExtracted
  cases hx : x f with
  | none => simp [hset]
  | some w => simp [hterm, hset]

/-- Any single extraction operation preserves a terminal field that is
already set. -/
theorem applyExtractOp_preserves_terminal (term : FieldName → Bool)
    (e : Extracted) (op : ExtractOp) (f : FieldName) (v : String)
    (hterm : term f = true) (hset : e f = some v) :
    applyExtractOp term e op f = some v := by
  cases op with
  | writeOp g w => exact writeField_preserves_terminal term e f g v w hterm hset
  | mergeOp x => exact mergeExtracted_preserves_terminal term e x f v hterm hset

/-- Any sequence of extraction operations preserves a terminal field that
is already set. -/
theorem applyExtractOps_preserves_terminal (term : FieldName → Bool)
    (ops : List ExtractOp) (e : Extracted) (f : FieldName) (v : String)
    (hterm : term f = true) (hset : e f = some v) :
    applyExtractOps term ops e f = some v := by
  induction ops generalizing e with
  | nil => exact hset
  | cons op rest ih =>
    exact ih (applyExtractOp term e op)
      (applyExtractOp_preserves_terminal term e op f v hterm hset)

/-- Claim C4: once a terminal field (such as the outcome classification)
has been written into the `extracted` map, no later write in the same
session — any sequence of incremental writes and merges, and the merge
performed by the Extraction Bridge at finalization on top of them —
changes that field's value. -/
theorem C4_terminal_fields_never_overwritten {TurnT ScenarioT : Type}
    (term : FieldName → Bool) (e : Extracted) (f : FieldName) (v : String)
    (ops : List ExtractOp)
    (extractor : List TurnT → ScenarioT → Extracted)
    (turnLog : List TurnT) (scenario : ScenarioT)
    (hterm : term f = true) (hset : e f = some v) :
    applyExtractOps term ops e f = some v ∧
    extractionBridge term extractor turnLog scenario
      (applyExtractOps term ops e) f = some v := by
  have hops := applyExtractOps_preserves_terminal term ops e f v hterm hset
  exact ⟨hops,
    mergeExtracted_preserves_terminal term (applyExtractOps term ops e)
      (extractor turnLog scenario) f v hterm hops⟩

theorem C4_witness :
    applyExtractOps termW opsW extractedW "call_outcome" = some "Emergency" ∧
    extractionBridge termW extractorW ["turn"] ()
      (applyExtractOps termW opsW extractedW) "call_outcome" = some "Emergency" :=
  C4_terminal_fields_never_overwritten termW extractedW "call_outcome"
    "Emergency" opsW extractorW ["turn"] () (by decide) (by decide)

/-- Claim C7: the Extraction Bridge is idempotent on a fixed finalized
turn log: feeding its own output back through the bridge with the same
turn log and scenario yields the identical `extracted` map. -/
theorem C7_extraction_bridge_idempotent {TurnT ScenarioT : Type}
    (term : FieldName → Bool)
    (extractor : List TurnT → ScenarioT → Extracted)
    (turnLog : List TurnT) (scenario : ScenarioT) (e : Extracted) :
    extractionBridge term extractor turnLog scenario
      (extractionBridge term extractor turnLog scenario e) =
    extractionBridge term extractor turnLog scenario e := by
  funext g
  unfold extractionBridge mergeExtracted
  cases hx : extractor turnLog scenario g with
  | none => rfl
  | some v =>
    by_cases ht : term g = true
    · cases he : e g with
      | none => simp [ht, he]
      | some w => simp [ht, he]
    · simp [ht]

theorem emergencyFlow_scenario (s1 : EngineSession) (text : String) :
    (emergencyFlow s1 text).1.scenario = s1.scenario := by
  simp only [emergencyFlow]
  repeat' split
  all_goals rfl

theorem emergencyFlow_terseStreak (s1 : EngineSession) (text : String) :
    (emergencyFlow s1 text).1.terseStreak = s1.terseStreak := by
  simp only [emergencyFlow]
  repeat' split
  all_goals rfl

theorem askNextField_scenario (cfg : EngineConfig) (s2 : EngineSession)
    (text : String) :
    (askNextField cfg s2 text).1.scenario = s2.scenario := by
  simp only [askNextField]
  repeat' split
  all_goals rfl

theorem askNextField_terseStreak (cfg : EngineConfig) (s2 : EngineSession)
    (text : String) :
    (askNextField cfg s2 text).1.terseStreak = s2.terseStreak := by
  simp only [askNextField]
  repeat' split
  all_goals rfl

theorem checkInFlow_scenario (cfg : EngineConfig) (s1 : EngineSession)
    (text : String) :
    (checkInFlow cfg s1 text).1.scenario = s1.scenario := by
  simp only [checkInFlow]
  repeat' split
  all_goals first
    | rfl
    | rw [askNextField_scenario]

theorem checkInFlow_terseStreak (cfg : EngineConfig) (s1 : EngineSession)
    (text : String) :
    (checkInFlow cfg s1 text).1.terseStreak = s1.terseStreak := by
  simp only [checkInFlow]
  repeat' split
  all_goals first
    | rfl
    | rw [askNextField_terseStreak]

theorem genericFlow_scenario (cfg : EngineConfig) (s1 : EngineSession) :
    (genericFlow cfg s1).1.scenario = s1.scenario := by
  simp only [genericFlow]
  repeat' split
  all_goals rfl

theorem genericFlow_terseStreak (cfg : EngineConfig) (s1 : EngineSession) :
    (genericFlow cfg s1).1.terseStreak = s1.terseStreak := by
  simp only [genericFlow]
  repeat' split
  all_goals rfl

theorem normalFlow_scenario (cfg : EngineConfig) (s1 : EngineSession)
    (text : String) :
    (normalFlow cfg s1 text).1.scenario = s1.scenario := by
  simp only [normalFlow]
  repeat' split
  all_goals first
    | rfl
    | rw [emergencyFlow_scenario]
    | rw [checkInFlow_scenario]
    | rw [genericFlow_scenario]

theorem normalFlow_terseStreak (cfg : EngineConfig) (s1 : EngineSession)
    (text : String) :
    (normalFlow cfg s1 text).1.terseStreak = s1.terseStreak := by
  simp only [normalFlow]
  repeat' split
  all_goals first
    | rfl
    | rw [emergencyFlow_terseStreak]
    | rw [checkInFlow_terseStreak]
    | rw [genericFlow_terseStreak]

theorem processTurn_scenario_emergency (cfg : EngineConfig)
    (s : EngineSession) (text : String) (conf : Nat)
    (h : s.scenario = .Emergency) :
    (processTurn cfg s text conf).1.scenario = .Emergency := by
  simp only [processTurn]
  repeat' split
  all_goals first
    | rfl
    | exact h
    | (rw [normalFlow_scenario]; exact h)

theorem processTurn_terseStreak (cfg : EngineConfig) (s : EngineSession)
    (text : String) (conf : Nat) :
    (processTurn cfg s text conf).1.terseStreak =
      (if wordCount text < cfg.terseThreshold then s.terseStreak + 1 else 0) := by
  simp only [processTurn]
  repeat' split
  all_goals first
    | rfl
    | rw [normalFlow_terseStreak]

/-- Claim C1: for every session in any scenario other than Emergency and
every processing state, if the latest counterparty turn contains any
configured emergency trigger phrase, the engine's very next outbound
utterance is the Emergency safety-check question, the scenario flips to
Emergency and the CheckIn checklist is discarded, regardless of how much
of the checklist has been completed (the session `s` is arbitrary). -/
theorem C1_emergency_precedence (cfg : EngineConfig) (s : EngineSession)
    (text : String) (conf : Nat)
    (hscen : s.scenario ≠ .Emergency)
    (htrig : emergencyTriggered cfg text = true) :
    (processTurn cfg s text conf).2.utterance = stageQuestion .SafetyCheck ∧
    (processTurn cfg s text conf).1.scenario = .Emergency ∧
    (processTurn cfg s text conf).1.checklist = [] := by
  simp only [processTurn]
  rw [if_pos ⟨hscen, htrig⟩]
  exact ⟨rfl, rfl, rfl⟩

theorem C1_witness :
    (processTurn cfgW sessionW "I just had a blowout!" 90).2.utterance =
      stageQuestion .SafetyCheck ∧
    (processTurn cfgW sessionW "I just had a blowout!" 90).1.scenario =
      .Emergency ∧
    (processTurn cfgW sessionW "I just had a blowout!" 90).1.checklist = [] :=
  C1_emergency_precedence cfgW sessionW "I just had a blowout!" 90
    (by decide) (by decide)

theorem stepEvent_scenario_emergency (cfg : EngineConfig)
    (s : EngineSession) (e : CallEvent) (h : s.scenario = .Emergency) :
    (stepEvent cfg s e).1.scenario = .Emergency := by
  simp only [stepEvent]
  repeat' split
  all_goals first
    | exact h
    | exact processTurn_scenario_emergency cfg s _ _ h

/-- Claim C2: once a session's scenario has been set to Emergency, no
subsequent event processing step changes the scenario to any other value
for the remainder of the call: processing any sequence of further events
leaves the scenario at Emergency. -/
theorem C2_emergency_monotonic (cfg : EngineConfig) (s : EngineSession)
    (evs : List CallEvent) (h : s.scenario = .Emergency) :
    (runEvents cfg s evs).scenario = .Emergency := by
  induction evs generalizing s with
  | nil => exact h
  | cons e rest ih =>
    simp only [runEvents, List.foldl_cons]
    exact ih _ (stepEvent_scenario_emergency cfg s e h)

theorem C2_witness :
    (runEvents cfgW emergencySessionW
      [CallEvent.turn "yes I am off the road" 80, CallEvent.reminder,
       CallEvent.turn "ok" 20, CallEvent.callEnded]).scenario = .Emergency :=
  C2_emergency_monotonic cfgW emergencySessionW
    [CallEvent.turn "yes I am off the road" 80, CallEvent.reminder,
     CallEvent.turn "ok" 20, CallEvent.callEnded] (by decide)

/-- Claim C3, counterexample to the second half as stated: a one-word,
low-confidence turn after four terse turns makes the terse streak reach
5, yet — because the NoisyEnvironment override takes precedence over the
UncooperativeDriver override — the decision on that turn is the
repeat-request with `endCall=false` and no "Unresponsive" outcome. -/
theorem C3_counterexample :
    (processTurn cfgW terseSessionW "ok" 30).1.terseStreak = 5 ∧
    (processTurn cfgW terseSessionW "ok" 30).2.endCall = false ∧
    (processTurn cfgW terseSessionW "ok" 30).2.utterance = repeatRequest ∧
    (processTurn cfgW terseSessionW "ok" 30).2.outcome ≠ some "Unresponsive" :=
  ⟨by decide, by decide, by decide, by decide⟩

/-- Claim C3, amended: processing any turn whose word count is at or
above the terseness threshold sets the terse streak to 0; and whenever
the terse streak reaches 5 on a turn that does not fire the
higher-precedence overrides (the turn neither triggers the emergency
branch nor has confidence below the clarification threshold), the
decision on that turn has `endCall=true` and outcome "Unresponsive". -/
theorem C3_terse_streak (cfg : EngineConfig) (s : EngineSession)
    (text : String) (conf : Nat) :
    (cfg.terseThreshold ≤ wordCount text →
      (processTurn cfg s text conf).1.terseStreak = 0) ∧
    (¬ (s.scenario ≠ .Emergency ∧ emergencyTriggered cfg text = true) →
      cfg.confidenceThreshold ≤ conf →
      (processTurn cfg s text conf).1.terseStreak = 5 →
      (processTurn cfg s text conf).2.endCall = true ∧
      (processTurn cfg s text conf).2.outcome = some "Unresponsive") := by
  constructor
  · intro h
    rw [processTurn_terseStreak]
    rw [if_neg (not_lt.mpr h)]
  · intro hng hconf h5
    rw [processTurn_terseStreak] at h5
    have hlc : ¬ (conf < cfg.confidenceThreshold) := not_lt.mpr hconf
    have hdec : (processTurn cfg s text conf).2 =
        { utterance := unresponsiveClosing
          endCall := true
          outcome := some "Unresponsive"
          escalate := false } := by
      simp only [processTurn]
      rw [if_neg hng, if_neg hlc, h5]
      rw [if_pos (by omega)]
    rw [hdec]
    exact ⟨rfl, rfl⟩

theorem C3_witness :
    (processTurn cfgW sessionW "hello there good sir friend" 90).1.terseStreak = 0 ∧
    (processTurn cfgW terseSessionW "ok" 90).2.endCall = true ∧
    (processTurn cfgW terseSessionW "ok" 90).2.outcome = some "Unresponsive" :=
  ⟨(C3_terse_streak cfgW sessionW "hello there good sir friend" 90).1 (by decide),
   ((C3_terse_streak cfgW terseSessionW "ok" 90).2 (by decide) (by decide)
     (by decide)).1,
   ((C3_terse_streak cfgW terseSessionW "ok" 90).2 (by decide) (by decide)
     (by decide)).2⟩

/-- Claim C5: for every CallDetails message received at connection start
(any store without a live session for the `callId`, any initial
configuration), the Protocol Handler creates the Session and replies
immediately with the opening utterance, whose text is non-empty — the
agent speaks first and an empty opening reply never occurs. -/
theorem C5_opening_reply (st : SessionStore) (cid : String) (c : InitConfig)
    (h : SessionStore.find st cid = none) :
    handleCallDetails st cid c =
      .ok ((cid, initSession cid c) :: st, openingUtterance c.subject) ∧
    openingUtterance c.subject ≠ "" := by
  constructor
  · simp [handleCallDetails, SessionStore.create, h, initSession]
  · intro hemp
    have hl := congrArg String.length hemp
    simp only [openingUtterance, String.length_append] at hl
    have h1 : ("Hi ").length = 3 := rfl
    have h2 : ("" : String).length = 0 := rfl
    omega

theorem C5_witness :
    handleCallDetails [] "call-1" initConfigW =
      .ok ([("call-1", initSession "call-1" initConfigW)],
        openingUtterance initConfigW.subject) ∧
    openingUtterance initConfigW.subject ≠ "" :=
  C5_opening_reply [] "call-1" initConfigW rfl

/-- Claim C6: for every Session Store state, `create` on a `callId` that
already has a live session fails with DuplicateSession (returning the
error, so the store is left unchanged), and `get` or `remove` on an
absent `callId` fails with SessionNotFound; in no case is the call
silently ignored. -/
theorem C6_store_caller_errors (st : SessionStore) (cid : String)
    (c : InitConfig) :
    ((SessionStore.find st cid).isSome = true →
      SessionStore.create st cid c = .error .DuplicateSession) ∧
    (SessionStore.find st cid = none →
      SessionStore.get st cid = .error .SessionNotFound ∧
      SessionStore.remove st cid = .error .SessionNotFound) := by
  constructor
  · intro h
    cases hf : SessionStore.find st cid with
    | none => rw [hf] at h; simp at h
    | some s => simp [SessionStore.create, hf]
  · intro h
    exact ⟨by simp [SessionStore.get, h], by simp [SessionStore.remove, h]⟩

theorem C6_witness :
    SessionStore.create storeW "call-1" initConfigW =
      .error .DuplicateSession ∧
    SessionStore.get storeW "call-2" = .error .SessionNotFound ∧
    SessionStore.remove storeW "call-2" = .error .SessionNotFound :=
  ⟨(C6_store_caller_errors storeW "call-1" initConfigW).1 rfl,
   ((C6_store_caller_errors storeW "call-2" initConfigW).2 rfl).1,
   ((C6_store_caller_errors storeW "call-2" initConfigW).2 rfl).2⟩

/-- Claim C8: the session status is one of exactly the four values
Active, Escalated, Completed and Abandoned, and the only terminal
statuses are Completed and Abandoned: an event processed in a terminal
status leaves the session unchanged and produces no reply, while from
Active or Escalated (which are not terminal) a transport failure moves
the session to Abandoned. -/
theorem C8_status_space_and_terminality (cfg : EngineConfig)
    (s : EngineSession) (e : CallEvent) :
    (∀ st : SessionStatus,
      st = .Active ∨ st = .Escalated ∨ st = .Completed ∨ st = .Abandoned) ∧
    (s.status = .Completed ∨ s.status = .Abandoned →
      stepEvent cfg s e = (s, none)) ∧
    (s.status = .Active ∨ s.status = .Escalated →
      (stepEvent cfg s .transportFailure).1.status = .Abandoned ∧
      s.status ≠ .Completed ∧ s.status ≠ .Abandoned) := by
  refine ⟨?_, ?_, ?_⟩
  · intro st
    cases st <;> simp
  · intro h
    simp only [stepEvent]
    rw [if_pos h]
  · intro h
    have hne : ¬ (s.status = .Completed ∨ s.status = .Abandoned) := by
      rcases h with h | h <;> simp [h]
    refine ⟨?_, ?_, ?_⟩
    · simp only [stepEvent]
      rw [if_neg hne]
    · rcases h with h | h <;> simp [h]
    · rcases h with h | h <;> simp [h]

theorem C8_witness :
    stepEvent cfgW completedSessionW .reminder = (completedSessionW, none) ∧
    (stepEvent cfgW escalatedSessionW .transportFailure).1.status =
      .Abandoned ∧
    (stepEvent cfgW sessionW .transportFailure).1.status = .Abandoned :=
  ⟨(C8_status_space_and_terminality cfgW completedSessionW .reminder).2.1
      (Or.inl rfl),
   ((C8_status_space_and_terminality cfgW escalatedSessionW .reminder).2.2
      (Or.inr rfl)).1,
   ((C8_status_space_and_terminality cfgW sessionW .reminder).2.2
      (Or.inl rfl)).1⟩
